import Mathlib

/-!
Verification of the OXY-SHIELD backend: a shallow embedding of the
vital-sign risk-assessment engine (`Backend/models/health_predictor.py`,
class `HealthPredictor`), of the `/api/vitals` input validation
(`Backend/app.py`, `receive_vitals`) and of the alert-deduplication policy
(`Backend/database/db_manager.py`, `DatabaseManager._check_and_create_alert`,
`acknowledge_alert`), followed by theorems settling the claims of the spec.

Numbers are modelled as exact rationals (the Python code computes on
floats; every value the claims mention is an exact decimal).  The Python
call `round(x, 1)` is modelled by `pyRound1` via the Mathlib `round` on ℚ
(round half towards +∞); no value appearing in any claim lies on a
rounding tie, so the tie-breaking convention is immaterial here.
Wall-clock timestamps (`datetime.now()`) are modelled by an explicit
`now : ℚ` parameter measured in minutes, and the SQLite alerts table by a
Lean list in insertion order with `id` the autoincrement rowid.
String-valued statuses, levels and priorities are kept as the literal
strings the Python code uses.
-/

namespace OxyShield

/-- Threshold row of `HealthPredictor.self.thresholds` (health_predictor.py
lines 31-37). -/
structure Thresholds where
  min : ℚ
  max : ℚ
  critical_low : ℚ
  critical_high : ℚ
deriving DecidableEq, Repr

/-- The five vital names keying the threshold table. -/
inductive VitalName where
  | heart_rate | spo2 | temperature | systolic | diastolic
deriving DecidableEq, Repr

/-- `self.thresholds` dictionary (health_predictor.py lines 31-37). -/
def thresholds : VitalName → Thresholds
  | .heart_rate => ⟨60, 100, 50, 120⟩
  | .spo2 => ⟨92, 100, 88, 100⟩
  | .temperature => ⟨36.1, 37.2, 35.5, 38.0⟩
  | .systolic => ⟨90, 130, 80, 150⟩
  | .diastolic => ⟨60, 85, 50, 95⟩

/-- Result dict of `_assess_vital` (health_predictor.py lines 160-165). -/
structure VitalStatus where
  value : ℚ
  status : String
  severity : ℕ
  in_range : Bool
deriving DecidableEq, Repr

/-- `HealthPredictor._assess_vital` (health_predictor.py lines 146-165). -/
def _assess_vital (vital_name : VitalName) (value : ℚ) : VitalStatus :=
  let t := thresholds vital_name
  if value < t.critical_low ∨ value > t.critical_high then
    ⟨value, "critical", 2, false⟩
  else if value < t.min ∨ value > t.max then
    ⟨value, "warning", 1, false⟩
  else
    ⟨value, "normal", 0, true⟩

/-- Result dict of `_assess_blood_pressure` (health_predictor.py
lines 178-184). -/
structure BPStatus where
  systolic : ℚ
  diastolic : ℚ
  status : String
  severity : ℕ
  in_range : Bool
deriving DecidableEq, Repr

/-- `HealthPredictor._assess_blood_pressure` (health_predictor.py
lines 168-184). -/
def _assess_blood_pressure (systolic diastolic : ℚ) : BPStatus :=
  let sys_status := _assess_vital .systolic systolic
  let dia_status := _assess_vital .diastolic diastolic
  let overall_status :=
    if sys_status.status = "critical" ∨ dia_status.status = "critical" then "critical"
    else if sys_status.status = "warning" ∨ dia_status.status = "warning" then "warning"
    else "normal"
  { systolic := sys_status.value
    diastolic := dia_status.value
    status := overall_status
    severity := Max.max sys_status.severity dia_status.severity
    in_range := sys_status.in_range && dia_status.in_range }

/-- `HealthPredictor._calculate_health_score` (health_predictor.py
lines 187-197): 100 minus weighted severities, clamped to [0,100]. -/
def _calculate_health_score (hr_status spo2_status temp_status : VitalStatus)
    (bp_status : BPStatus) : ℚ :=
  Max.max 0 (Min.min 100
    (100 - (hr_status.severity : ℚ) * 15 - (spo2_status.severity : ℚ) * 20
       - (temp_status.severity : ℚ) * 10 - (bp_status.severity : ℚ) * 15))

/-- `HealthPredictor._get_altitude_factor` (health_predictor.py
lines 433-438): the loop over `self.altitude_factors` (lines 40-47) sorted
in descending breakpoint order, returning the first factor whose
breakpoint the altitude reaches, 1.0 if none. -/
def _get_altitude_factor (altitude : ℚ) : ℚ :=
  if altitude ≥ 7000 then 1.75
  else if altitude ≥ 5500 then 1.5
  else if altitude ≥ 4000 then 1.3
  else if altitude ≥ 2500 then 1.15
  else if altitude ≥ 1000 then 1.05
  else if altitude ≥ 0 then 1.0
  else 1.0

/-- The Python call `round(x, 1)` on the exact rational value. -/
def pyRound1 (q : ℚ) : ℚ := (round (10 * q) : ℤ) / 10

/-- Result dict of the four `_predict_*` risk functions. -/
structure RiskPrediction where
  percentage : ℚ
  level : String
  confidence : ℚ
deriving DecidableEq, Repr

/-- Shared tail of every `_predict_*` function: clamp with `min(100, ·)`,
round the percentage to one decimal, classify the clamped (unrounded)
score. -/
def mkRiskPrediction (raw_score : ℚ) (confidence : ℚ) : RiskPrediction :=
  let risk_score := Min.min 100 raw_score
  { percentage := pyRound1 risk_score
    level := if risk_score > 60 then "high"
             else if risk_score > 30 then "moderate" else "low"
    confidence := confidence }

/-- `HealthPredictor._predict_hypoxia_risk` (health_predictor.py
lines 200-226). -/
def _predict_hypoxia_risk (spo2 altitude heart_rate : ℚ) : RiskPrediction :=
  mkRiskPrediction
    ((if spo2 < 88 then 60 else if spo2 < 92 then 30 else if spo2 < 95 then 10 else 0)
      + (_get_altitude_factor altitude - 1.0) * 30
      + (if heart_rate > 100 then 10 else 0))
    0.85

/-- `HealthPredictor._predict_altitude_sickness` (health_predictor.py
lines 229-259). -/
def _predict_altitude_sickness (altitude spo2 heart_rate : ℚ) : RiskPrediction :=
  mkRiskPrediction
    ((if altitude > 5500 then 50 else if altitude > 4000 then 30
      else if altitude > 2500 then 10 else 0)
      + (if spo2 < 90 then 30 else if spo2 < 94 then 15 else 0)
      + (if heart_rate > 110 then 20 else if heart_rate > 95 then 10 else 0))
    0.80

/-- `HealthPredictor._predict_cardiac_stress` (health_predictor.py
lines 262-290). -/
def _predict_cardiac_stress (heart_rate systolic diastolic : ℚ) : RiskPrediction :=
  mkRiskPrediction
    ((if heart_rate > 120 then 40 else if heart_rate > 100 then 20
      else if heart_rate < 50 then 30 else 0)
      + (if systolic > 140 ∨ diastolic > 90 then 30
         else if systolic > 130 ∨ diastolic > 85 then 15 else 0)
      + (if systolic < 90 ∨ diastolic < 60 then 30 else 0))
    0.78

/-- `HealthPredictor._predict_hypothermia` (health_predictor.py
lines 293-317). -/
def _predict_hypothermia (temperature altitude : ℚ) : RiskPrediction :=
  mkRiskPrediction
    ((if temperature < 35 then 70 else if temperature < 35.5 then 40
      else if temperature < 36 then 20 else 0)
      + (if altitude > 5000 then 15 else if altitude > 3000 then 5 else 0))
    0.82

/-- Result dict of `_determine_overall_risk` (health_predictor.py
lines 346-349). -/
structure OverallRisk where
  percentage : ℚ
  level : String
deriving DecidableEq, Repr

/-- `HealthPredictor._determine_overall_risk` (health_predictor.py
lines 320-349). -/
def _determine_overall_risk (hypoxia altitude_sickness cardiac hypothermia :
    RiskPrediction) : OverallRisk :=
  let max_risk := Max.max (Max.max (Max.max hypoxia.percentage
    altitude_sickness.percentage) cardiac.percentage) hypothermia.percentage
  let avg_risk := (hypoxia.percentage + altitude_sickness.percentage
    + cardiac.percentage + hypothermia.percentage) / 4
  let overall := max_risk * 0.6 + avg_risk * 0.4
  { percentage := pyRound1 overall
    level := if overall > 70 then "critical"
             else if overall > 50 then "high"
             else if overall > 30 then "moderate"
             else "low" }

/-- One recommendation dict (health_predictor.py lines 358-415). -/
structure Recommendation where
  priority : String
  action : String
  icon : String
deriving DecidableEq, Repr

/-- `HealthPredictor._generate_recommendations` (health_predictor.py
lines 352-417), appending in the fixed rule order of the source. -/
def _generate_recommendations (overall_risk : OverallRisk)
    (hr_status spo2_status temp_status : VitalStatus) (bp_status : BPStatus) :
    List Recommendation :=
  let recommendations : List Recommendation := []
  let recommendations := recommendations ++
    (if overall_risk.level = "critical" then
      [⟨"CRITICAL", "Immediate medical evacuation required", "🚨"⟩] else [])
  let recommendations := recommendations ++
    (if spo2_status.status = "critical" then
      [⟨"URGENT", "Administer supplemental oxygen immediately", "💨"⟩]
     else if spo2_status.status = "warning" then
      [⟨"HIGH", "Monitor oxygen saturation closely, consider oxygen therapy", "⚠️"⟩]
     else [])
  let recommendations := recommendations ++
    (if hr_status.status = "critical" then
      [⟨"URGENT", "Cardiac assessment required - possible arrhythmia", "♥️"⟩] else [])
  let recommendations := recommendations ++
    (if temp_status.status = "critical" then
      (if temp_status.value < 35.5 then
        [⟨"URGENT", "Hypothermia treatment - warm gradually, avoid extremes", "🌡️"⟩]
       else
        [⟨"URGENT", "Hyperthermia treatment - cool down, hydrate", "🌡️"⟩])
     else [])
  let recommendations := recommendations ++
    (if bp_status.status = "critical" then
      [⟨"HIGH", "Blood pressure management required", "⚡"⟩] else [])
  if (overall_risk.level = "low" ∨ overall_risk.level = "moderate")
      ∧ recommendations.length = 0 then
    recommendations ++ [⟨"ROUTINE", "Continue standard monitoring protocol", "✓"⟩]
  else
    recommendations

/-- `HealthPredictor._predict_trend` (health_predictor.py lines 420-430). -/
def _predict_trend (health_score : ℚ) : String :=
  if health_score ≥ 85 then "stable"
  else if health_score ≥ 70 then "monitor"
  else "deteriorating"

/-- The vitals dict handed to `HealthPredictor.predict`: each field may be
absent, in which case `vitals.get(key, default)` substitutes the default
(health_predictor.py lines 62-68). -/
structure VitalsInput where
  heart_rate : Option ℚ
  spo2 : Option ℚ
  temperature : Option ℚ
  systolic : Option ℚ
  diastolic : Option ℚ
  altitude : Option ℚ
deriving DecidableEq, Repr

/-- The results dict of `HealthPredictor.predict` (health_predictor.py
lines 101-122); `predicted_at` (a wall-clock timestamp) is not modelled. -/
structure PredictResults where
  health_score : ℚ
  overall_risk_level : String
  overall_risk_percentage : ℚ
  va_heart_rate : VitalStatus
  va_spo2 : VitalStatus
  va_temperature : VitalStatus
  va_blood_pressure : BPStatus
  rp_hypoxia : RiskPrediction
  rp_altitude_sickness : RiskPrediction
  rp_cardiac_stress : RiskPrediction
  rp_hypothermia : RiskPrediction
  recommendations : List Recommendation
  health_trend : String
  altitude_adjustment : ℚ
  model_version : String
deriving DecidableEq, Repr

/-- `HealthPredictor.predict` (health_predictor.py lines 51-124). -/
def predict (vitals : VitalsInput) : PredictResults :=
  let heart_rate := vitals.heart_rate.getD 72
  let spo2 := vitals.spo2.getD 96
  let temperature := vitals.temperature.getD 36.8
  let systolic := vitals.systolic.getD 120
  let diastolic := vitals.diastolic.getD 80
  let altitude := vitals.altitude.getD 0
  let hr_status := _assess_vital .heart_rate heart_rate
  let spo2_status := _assess_vital .spo2 spo2
  let temp_status := _assess_vital .temperature temperature
  let bp_status := _assess_blood_pressure systolic diastolic
  let health_score := _calculate_health_score hr_status spo2_status temp_status bp_status
  let hypoxia_risk := _predict_hypoxia_risk spo2 altitude heart_rate
  let altitude_sickness_risk := _predict_altitude_sickness altitude spo2 heart_rate
  let cardiac_stress_risk := _predict_cardiac_stress heart_rate systolic diastolic
  let hypothermia_risk := _predict_hypothermia temperature altitude
  let overall_risk := _determine_overall_risk hypoxia_risk altitude_sickness_risk
    cardiac_stress_risk hypothermia_risk
  let recommendations := _generate_recommendations overall_risk hr_status
    spo2_status temp_status bp_status
  let trend := _predict_trend health_score
  { health_score := pyRound1 health_score
    overall_risk_level := overall_risk.level
    overall_risk_percentage := overall_risk.percentage
    va_heart_rate := hr_status
    va_spo2 := spo2_status
    va_temperature := temp_status
    va_blood_pressure := bp_status
    rp_hypoxia := hypoxia_risk
    rp_altitude_sickness := altitude_sickness_risk
    rp_cardiac_stress := cardiac_stress_risk
    rp_hypothermia := hypothermia_risk
    recommendations := recommendations
    health_trend := trend
    altitude_adjustment := _get_altitude_factor altitude
    model_version := "1.0.0" }

/-- The JSON body of a POST to `/api/vitals` (app.py, `receive_vitals`):
each field may be missing.  Only the fields the endpoint reads are
modelled. -/
structure RequestData where
  soldier_id : Option String
  heart_rate : Option ℚ
  spo2 : Option ℚ
  temperature : Option ℚ
  systolic : Option ℚ
  diastolic : Option ℚ
  altitude : Option ℚ
deriving DecidableEq, Repr

/-- `receive_vitals` (app.py lines 54-118), up to the ML call: the loop
over the required fields soldier_id, heart_rate, spo2 and temperature
returns a 400 error naming the first missing field; otherwise the vitals
dict is built (systolic/diastolic/altitude defaulted to 120/80/0) and
passed to `predict`.  Storage and broadcast are external side effects and
are modelled separately. -/
def receive_vitals (data : RequestData) : Except String PredictResults :=
  match data.soldier_id, data.heart_rate, data.spo2, data.temperature with
  | none, _, _, _ => .error "Missing required field: soldier_id"
  | some _, none, _, _ => .error "Missing required field: heart_rate"
  | some _, some _, none, _ => .error "Missing required field: spo2"
  | some _, some _, some _, none => .error "Missing required field: temperature"
  | some _, some hr, some sp, some temp =>
      .ok (predict
        { heart_rate := some hr
          spo2 := some sp
          temperature := some temp
          systolic := some (data.systolic.getD 120)
          diastolic := some (data.diastolic.getD 80)
          altitude := some (data.altitude.getD 0) })

/-- One row of the SQLite `alerts` table (db_manager.py lines 54-66):
`id` is the autoincrement rowid, `acknowledged` defaults to 0,
`created_at` is the insertion wall-clock time (modelled in minutes), the
`vitals_snapshot` JSON blob is flattened into its four fields. -/
structure AlertRecord where
  id : ℕ
  soldier_id : String
  alert_type : String
  severity : String
  message : String
  snapshot_heart_rate : ℚ
  snapshot_spo2 : ℚ
  snapshot_temperature : ℚ
  snapshot_risk_percentage : ℚ
  acknowledged : Bool
  acknowledged_at : Option ℚ
  created_at : ℚ
deriving DecidableEq, Repr

/-- The row filter of the dedup query in `_check_and_create_alert`
(db_manager.py lines 186-192): same soldier, same severity,
unacknowledged, created within the last ten minutes. -/
def recentMatch (soldier : String) (sev : String) (ten_min_ago : ℚ)
    (a : AlertRecord) : Bool :=
  decide (a.soldier_id = soldier) && decide (a.severity = sev)
    && !a.acknowledged && decide (ten_min_ago ≤ a.created_at)

/-- The reading fields of the `data` dict that `_check_and_create_alert`
snapshots (db_manager.py lines 214-219); on the `/api/vitals` path these
are always present. -/
structure StoredVitals where
  soldier_id : String
  heart_rate : ℚ
  spo2 : ℚ
  temperature : ℚ
deriving DecidableEq, Repr

/-- `DatabaseManager._check_and_create_alert` (db_manager.py
lines 176-223), with the alerts table passed and returned explicitly and
`now` the wall-clock time in minutes: alerts are only created for overall
risk level high or critical; a matching unacknowledged alert in the last
10 minutes suppresses creation; the message is `recommendations[0].action`
or the literal fallback when the list is empty. -/
def _check_and_create_alert (alerts : List AlertRecord) (data : StoredVitals)
    (ml_analysis : PredictResults) (now : ℚ) : List AlertRecord :=
  let risk_level := ml_analysis.overall_risk_level
  if risk_level = "high" ∨ risk_level = "critical" then
    if 0 < (alerts.countP (recentMatch data.soldier_id risk_level (now - 10))) then
      alerts
    else
      alerts ++ [{ id := alerts.length
                   soldier_id := data.soldier_id
                   alert_type := "HEALTH_RISK"
                   severity := risk_level
                   message := match ml_analysis.recommendations with
                     | [] => "Health risk detected"
                     | r :: _ => r.action
                   snapshot_heart_rate := data.heart_rate
                   snapshot_spo2 := data.spo2
                   snapshot_temperature := data.temperature
                   snapshot_risk_percentage := ml_analysis.overall_risk_percentage
                   acknowledged := false
                   acknowledged_at := none
                   created_at := now }]
  else
    alerts

/-- `DatabaseManager.acknowledge_alert` (db_manager.py lines 243-257):
`UPDATE alerts SET acknowledged = 1, acknowledged_at = now WHERE id = ?`. -/
def acknowledge_alert (alerts : List AlertRecord) (alert_id : ℕ) (now : ℚ) :
    List AlertRecord :=
  alerts.map (fun a =>
    if a.id = alert_id then
      { a with acknowledged := true, acknowledged_at := some now }
    else a)

/-- One serialized operation on the alerts table: storing an assessed
reading (which runs `_check_and_create_alert`) or an operator
acknowledgement. -/
inductive DbEvent where
  | store (data : StoredVitals) (ml_analysis : PredictResults) (now : ℚ)
  | ack (alert_id : ℕ) (now : ℚ)

/-- Apply one database event to the alerts table. -/
def applyEvent (alerts : List AlertRecord) : DbEvent → List AlertRecord
  | .store data ml_analysis now => _check_and_create_alert alerts data ml_analysis now
  | .ack alert_id now => acknowledge_alert alerts alert_id now

/-- The alerts table reached by a sequence of events from the empty
table. -/
def runEvents (events : List DbEvent) : List AlertRecord :=
  events.foldl applyEvent []

/-- The deduplication invariant between two alert rows: if they agree on
soldier and severity and both are unacknowledged, their creation times are
more than 10 minutes apart. -/
def dedupOK (a b : AlertRecord) : Prop :=
  a.soldier_id = b.soldier_id → a.severity = b.severity →
  a.acknowledged = false → b.acknowledged = false →
  10 < |a.created_at - b.created_at|

/-- Modelled from the spec: the priority order CRITICAL > URGENT > HIGH >
ROUTINE implied by the rule list of spec §4.5, used to state what "the top-priority
recommendation" of an assessment is. -/
def specPriorityRank (priority : String) : ℕ :=
  if priority = "CRITICAL" then 3
  else if priority = "URGENT" then 2
  else if priority = "HIGH" then 1
  else 0

/-- A concrete reading used in the dedup scenario: the `data` dict fields
the alert code snapshots, for the example soldier id used in app.py. -/
def demoData : StoredVitals := ⟨"SOL-7842-ALPHA", 111, 94, 36.8⟩

/-- The assessment of the reading heart_rate=111, spo2=94,
temperature=36.8, systolic=120, diastolic=80, altitude=6200 — a reading
the engine classifies with overall risk level high. -/
def demoHigh : PredictResults :=
  predict ⟨some 111, some 94, some 36.8, some 120, some 80, some 6200⟩

/-- The alert row created for `demoHigh` at time 0 on an empty table. -/
def demoAlert0 : AlertRecord :=
  ⟨0, "SOL-7842-ALPHA", "HEALTH_RISK", "high", "Health risk detected",
   111, 94, 36.8, 56, false, none, 0⟩

/-- The alert row created for `demoHigh` at time 11 when `demoAlert0` is
already present. -/
def demoAlert11 : AlertRecord :=
  ⟨1, "SOL-7842-ALPHA", "HEALTH_RISK", "high", "Health risk detected",
   111, 94, 36.8, 56, false, none, 11⟩

/-- The assessment of the low-risk reading heart_rate=72, spo2=96,
temperature=36.8, systolic=120, diastolic=80, altitude=5400. -/
def demoLow : PredictResults :=
  predict ⟨some 72, some 96, some 36.8, some 120, some 80, some 5400⟩

/-- The assessment of the reading heart_rate=45 (critical bradycardia),
spo2=91 (warning), temperature=36.8, systolic=120, diastolic=80,
altitude=5600: its recommendation list holds a HIGH entry before an URGENT
one. -/
def bradyML : PredictResults :=
  predict ⟨some 45, some 91, some 36.8, some 120, some 80, some 5600⟩

/-- C1 counterexample: on the reading heart_rate=72, spo2=96,
temperature=36.8, systolic=120, diastolic=80, altitude=5400 the hypoxia
risk percentage is not 15.0 as claimed: altitude 5400 sits below the 5500
breakpoint, so its factor is 1.30, not 1.50, and the hypoxia score is
(1.30 - 1) * 30 = 9.0. -/
theorem hypoxia_at_5400_is_not_fifteen :
    (predict ⟨some 72, some 96, some 36.8, some 120, some 80, some 5400⟩).rp_hypoxia.percentage
      ≠ 15 := by
  norm_num [predict, _assess_vital, thresholds, _assess_blood_pressure,
    _calculate_health_score, _predict_hypoxia_risk, _predict_altitude_sickness,
    _predict_cardiac_stress, _predict_hypothermia, mkRiskPrediction,
    _get_altitude_factor, pyRound1, round_eq, _determine_overall_risk,
    _generate_recommendations, _predict_trend]

/-- C1 (amended): on the reading heart_rate=72, spo2=96, temperature=36.8,
systolic=120, diastolic=80, altitude=5400 every vital status is normal and
in range, the health score is 100, the hypoxia risk percentage is 9.0
(altitude factor 1.30 at 5400 m) with level low, the overall level is low
(hence low or moderate), and the recommendation list is exactly one
ROUTINE entry. -/
theorem normal_reading_assessment :
    (predict ⟨some 72, some 96, some 36.8, some 120, some 80, some 5400⟩).va_heart_rate.status = "normal" ∧
    (predict ⟨some 72, some 96, some 36.8, some 120, some 80, some 5400⟩).va_heart_rate.in_range = true ∧
    (predict ⟨some 72, some 96, some 36.8, some 120, some 80, some 5400⟩).va_spo2.status = "normal" ∧
    (predict ⟨some 72, some 96, some 36.8, some 120, some 80, some 5400⟩).va_spo2.in_range = true ∧
    (predict ⟨some 72, some 96, some 36.8, some 120, some 80, some 5400⟩).va_temperature.status = "normal" ∧
    (predict ⟨some 72, some 96, some 36.8, some 120, some 80, some 5400⟩).va_temperature.in_range = true ∧
    (predict ⟨some 72, some 96, some 36.8, some 120, some 80, some 5400⟩).va_blood_pressure.status = "normal" ∧
    (predict ⟨some 72, some 96, some 36.8, some 120, some 80, some 5400⟩).va_blood_pressure.in_range = true ∧
    (predict ⟨some 72, some 96, some 36.8, some 120, some 80, some 5400⟩).health_score = 100 ∧
    (predict ⟨some 72, some 96, some 36.8, some 120, some 80, some 5400⟩).rp_hypoxia.percentage = 9 ∧
    (predict ⟨some 72, some 96, some 36.8, some 120, some 80, some 5400⟩).rp_hypoxia.level = "low" ∧
    ((predict ⟨some 72, some 96, some 36.8, some 120, some 80, some 5400⟩).overall_risk_level = "low" ∨
      (predict ⟨some 72, some 96, some 36.8, some 120, some 80, some 5400⟩).overall_risk_level = "moderate") ∧
    (predict ⟨some 72, some 96, some 36.8, some 120, some 80, some 5400⟩).recommendations =
      [⟨"ROUTINE", "Continue standard monitoring protocol", "✓"⟩] := by
  norm_num [predict, _assess_vital, thresholds, _assess_blood_pressure,
    _calculate_health_score, _predict_hypoxia_risk, _predict_altitude_sickness,
    _predict_cardiac_stress, _predict_hypothermia, mkRiskPrediction,
    _get_altitude_factor, pyRound1, round_eq, _determine_overall_risk,
    _generate_recommendations, _predict_trend]
  all_goals decide

/-- C10: the reading heart_rate=111, spo2=94, temperature=36.8,
systolic=120, diastolic=80, altitude=6200 is assessed with overall risk
level high (percentage 56.0) yet an empty recommendation list — the
ROUTINE fallback requires level low or moderate and no per-vital rule
matches — and the alert the deduplicator then creates for it carries the
literal fallback message instead of the action text of any recommendation. -/
theorem high_risk_with_empty_recommendations :
    (predict ⟨some 111, some 94, some 36.8, some 120, some 80, some 6200⟩).overall_risk_level = "high" ∧
    (predict ⟨some 111, some 94, some 36.8, some 120, some 80, some 6200⟩).recommendations = [] ∧
    _check_and_create_alert [] ⟨"SOL-7842-ALPHA", 111, 94, 36.8⟩
        (predict ⟨some 111, some 94, some 36.8, some 120, some 80, some 6200⟩) 0 =
      [{ id := 0
         soldier_id := "SOL-7842-ALPHA"
         alert_type := "HEALTH_RISK"
         severity := "high"
         message := "Health risk detected"
         snapshot_heart_rate := 111
         snapshot_spo2 := 94
         snapshot_temperature := 36.8
         snapshot_risk_percentage := 56
         acknowledged := false
         acknowledged_at := none
         created_at := 0 }] := by
  norm_num [predict, _assess_vital, thresholds, _assess_blood_pressure,
    _calculate_health_score, _predict_hypoxia_risk, _predict_altitude_sickness,
    _predict_cardiac_stress, _predict_hypothermia, mkRiskPrediction,
    _get_altitude_factor, pyRound1, round_eq, _determine_overall_risk,
    _generate_recommendations, _predict_trend, _check_and_create_alert]
  all_goals decide

/-- C4: the altitude factor lookup is the step function returning the
factor of the largest breakpoint at or below the altitude over the
breakpoints 0 to 1.0, 1000 to 1.05, 2500 to 1.15, 4000 to 1.30, 5500 to
1.50, 7000 to 1.75, defaulting to 1.0 below the lowest breakpoint; in
particular factor(0)=1.0, factor(999)=1.0, factor(1000)=1.05,
factor(7001)=1.75. -/
theorem altitude_factor_step (a : ℚ) :
    (a < 0 → _get_altitude_factor a = 1.0) ∧
    (0 ≤ a → a < 1000 → _get_altitude_factor a = 1.0) ∧
    (1000 ≤ a → a < 2500 → _get_altitude_factor a = 1.05) ∧
    (2500 ≤ a → a < 4000 → _get_altitude_factor a = 1.15) ∧
    (4000 ≤ a → a < 5500 → _get_altitude_factor a = 1.30) ∧
    (5500 ≤ a → a < 7000 → _get_altitude_factor a = 1.50) ∧
    (7000 ≤ a → _get_altitude_factor a = 1.75) ∧
    _get_altitude_factor 0 = 1.0 ∧ _get_altitude_factor 999 = 1.0 ∧
    _get_altitude_factor 1000 = 1.05 ∧ _get_altitude_factor 7001 = 1.75 := by
  refine ⟨fun h1 => ?_, fun h1 h2 => ?_, fun h1 h2 => ?_, fun h1 h2 => ?_,
    fun h1 h2 => ?_, fun h1 h2 => ?_, fun h1 => ?_,
    by norm_num [_get_altitude_factor], by norm_num [_get_altitude_factor],
    by norm_num [_get_altitude_factor], by norm_num [_get_altitude_factor]⟩ <;>
  (simp only [_get_altitude_factor]; split_ifs <;> linarith)

/-- C4 witness: the step-function characterization evaluated at the
concrete altitude 1200, which lies in the [1000, 2500) band. -/
theorem altitude_factor_step_witness : _get_altitude_factor 1200 = 1.05 :=
  (altitude_factor_step 1200).2.2.1 (by norm_num) (by norm_num)

/-- C6: the risk aggregator computes the overall percentage as
0.6 × max of the four risk percentages + 0.4 × their mean, rounded to one
decimal, and classifies the (unrounded) overall as critical above 70, high
above 50, moderate above 30, and low otherwise, for all four input
percentages (and independently of the input levels and confidences). -/
theorem overall_risk_aggregation (p₁ p₂ p₃ p₄ : ℚ) (l₁ l₂ l₃ l₄ : String)
    (c₁ c₂ c₃ c₄ : ℚ) :
    _determine_overall_risk ⟨p₁, l₁, c₁⟩ ⟨p₂, l₂, c₂⟩ ⟨p₃, l₃, c₃⟩ ⟨p₄, l₄, c₄⟩ =
      { percentage := pyRound1 (0.6 * Max.max (Max.max (Max.max p₁ p₂) p₃) p₄
            + 0.4 * ((p₁ + p₂ + p₃ + p₄) / 4))
        level :=
          if 0.6 * Max.max (Max.max (Max.max p₁ p₂) p₃) p₄
              + 0.4 * ((p₁ + p₂ + p₃ + p₄) / 4) > 70 then "critical"
          else if 0.6 * Max.max (Max.max (Max.max p₁ p₂) p₃) p₄
              + 0.4 * ((p₁ + p₂ + p₃ + p₄) / 4) > 50 then "high"
          else if 0.6 * Max.max (Max.max (Max.max p₁ p₂) p₃) p₄
              + 0.4 * ((p₁ + p₂ + p₃ + p₄) / 4) > 30 then "moderate"
          else "low" } := by
  have h : Max.max (Max.max (Max.max p₁ p₂) p₃) p₄ * 0.6
        + (p₁ + p₂ + p₃ + p₄) / 4 * 0.4
      = 0.6 * Max.max (Max.max (Max.max p₁ p₂) p₃) p₄
        + 0.4 * ((p₁ + p₂ + p₃ + p₄) / 4) := by ring
  simp only [_determine_overall_risk, h]

/-- C7: for every vital name in the threshold table and every rational
value, the assessor reports the value unchanged and returns critical with
severity 2 when the value breaches a critical bound, warning with
severity 1 when it merely leaves the normal band, normal with severity 0
otherwise, with in_range true exactly when the status is normal; the
assessor is a total function, so any numeric input is accepted. -/
theorem assess_vital_classification (name : VitalName) (value : ℚ) :
    (_assess_vital name value).value = value ∧
    (value < (thresholds name).critical_low ∨ value > (thresholds name).critical_high →
      (_assess_vital name value).status = "critical" ∧
      (_assess_vital name value).severity = 2) ∧
    (¬(value < (thresholds name).critical_low ∨ value > (thresholds name).critical_high) →
      (value < (thresholds name).min ∨ value > (thresholds name).max) →
      (_assess_vital name value).status = "warning" ∧
      (_assess_vital name value).severity = 1) ∧
    (¬(value < (thresholds name).critical_low ∨ value > (thresholds name).critical_high) →
      ¬(value < (thresholds name).min ∨ value > (thresholds name).max) →
      (_assess_vital name value).status = "normal" ∧
      (_assess_vital name value).severity = 0) ∧
    ((_assess_vital name value).in_range = true ↔
      (_assess_vital name value).status = "normal") := by
  simp only [_assess_vital]
  split_ifs with h1 h2 <;>
    refine ⟨rfl, ?_, ?_, ?_, by simp⟩ <;> intros <;> simp_all

/-- C7 witness: the classification evaluated at heart_rate = 45, which
breaches the critical-low bound 50. -/
theorem assess_vital_classification_witness :
    (_assess_vital .heart_rate 45).status = "critical" ∧
    (_assess_vital .heart_rate 45).severity = 2 :=
  (assess_vital_classification .heart_rate 45).2.1
    (Or.inl (by norm_num [thresholds]))

/-- C2 counterexample: `HealthPredictor.predict` does not fail fast on a
vitals dict missing the required field heart_rate — it substitutes the
default 72 and returns a complete result (here with health score 100),
so a default value is substituted for heart_rate after all. -/
theorem predict_defaults_missing_required :
    predict ⟨none, some 96, some 36.8, some 120, some 80, some 0⟩ =
      predict ⟨some 72, some 96, some 36.8, some 120, some 80, some 0⟩ ∧
    (predict ⟨none, some 96, some 36.8, some 120, some 80, some 0⟩).va_heart_rate.value = 72 ∧
    (predict ⟨none, some 96, some 36.8, some 120, some 80, some 0⟩).health_score = 100 := by
  refine ⟨rfl, rfl, ?_⟩
  norm_num [predict, _assess_vital, thresholds, _assess_blood_pressure,
    _calculate_health_score, pyRound1, round_eq]

/-- C2 (amended): a request to the `/api/vitals` endpoint missing
heart_rate, spo2 or temperature is rejected with a missing-field error
before any scoring runs, and only systolic=120, diastolic=80, altitude=0
are defaulted on that path; the predictor itself, however, never fails on
a missing field — it substitutes the defaults heart_rate=72, spo2=96,
temperature=36.8 and returns a complete assessment. -/
theorem missing_required_field_handling :
    (∀ data : RequestData,
      data.heart_rate = none ∨ data.spo2 = none ∨ data.temperature = none →
      ∃ msg, receive_vitals data = .error msg) ∧
    (∀ v : VitalsInput,
      predict v = predict
        { v with heart_rate := some (v.heart_rate.getD 72)
                 spo2 := some (v.spo2.getD 96)
                 temperature := some (v.temperature.getD 36.8) }) := by
  constructor
  · intro data h
    rcases data with ⟨sid, hr, sp, t, sys, dia, alt⟩
    cases sid <;> cases hr <;> cases sp <;> cases t <;>
      first
        | exact ⟨_, rfl⟩
        | simp at h
  · intro v
    rcases v with ⟨hr, sp, t, sys, dia, alt⟩
    cases hr <;> cases sp <;> cases t <;> rfl

/-- C2 witness: the endpoint-level rejection applied to a concrete request
missing heart_rate. -/
theorem missing_required_field_handling_witness :
    ∃ msg, receive_vitals
      ⟨some "SOL-7842-ALPHA", none, some 96, some 36.8, none, none, none⟩ =
        .error msg :=
  missing_required_field_handling.1
    ⟨some "SOL-7842-ALPHA", none, some 96, some 36.8, none, none, none⟩
    (Or.inl rfl)

/-- C9: the health score is monotonically non-increasing as any one of the
four severities increases while the other three are held fixed, and always
lies in [0,100]. -/
theorem health_score_monotone_bounded (h₁ h₂ s₁ s₂ t₁ t₂ : VitalStatus)
    (b₁ b₂ : BPStatus) :
    (h₁.severity ≤ h₂.severity →
      _calculate_health_score h₂ s₁ t₁ b₁ ≤ _calculate_health_score h₁ s₁ t₁ b₁) ∧
    (s₁.severity ≤ s₂.severity →
      _calculate_health_score h₁ s₂ t₁ b₁ ≤ _calculate_health_score h₁ s₁ t₁ b₁) ∧
    (t₁.severity ≤ t₂.severity →
      _calculate_health_score h₁ s₁ t₂ b₁ ≤ _calculate_health_score h₁ s₁ t₁ b₁) ∧
    (b₁.severity ≤ b₂.severity →
      _calculate_health_score h₁ s₁ t₁ b₂ ≤ _calculate_health_score h₁ s₁ t₁ b₁) ∧
    0 ≤ _calculate_health_score h₁ s₁ t₁ b₁ ∧
    _calculate_health_score h₁ s₁ t₁ b₁ ≤ 100 := by
  refine ⟨fun h => ?_, fun h => ?_, fun h => ?_, fun h => ?_,
    le_max_left 0 _, max_le (by norm_num) (min_le_left 100 _)⟩ <;>
  · unfold _calculate_health_score
    have hc : ((Nat.cast : ℕ → ℚ) _ ≤ (Nat.cast : ℕ → ℚ) _) := Nat.cast_le.mpr h
    exact max_le_max le_rfl (min_le_min le_rfl (by linarith))

/-- C9 witness: the heart-rate monotonicity applied to concrete statuses
(severity 0 versus severity 2, other vitals normal). -/
theorem health_score_monotone_witness :
    _calculate_health_score ⟨130, "critical", 2, false⟩ ⟨96, "normal", 0, true⟩
        ⟨36.8, "normal", 0, true⟩ ⟨120, 80, "normal", 0, true⟩ ≤
      _calculate_health_score ⟨72, "normal", 0, true⟩ ⟨96, "normal", 0, true⟩
        ⟨36.8, "normal", 0, true⟩ ⟨120, 80, "normal", 0, true⟩ :=
  (health_score_monotone_bounded ⟨72, "normal", 0, true⟩ ⟨130, "critical", 2, false⟩
    ⟨96, "normal", 0, true⟩ ⟨96, "normal", 0, true⟩ ⟨36.8, "normal", 0, true⟩
    ⟨36.8, "normal", 0, true⟩ ⟨120, 80, "normal", 0, true⟩
    ⟨120, 80, "normal", 0, true⟩).1 (by norm_num)

/-- Rounding to one decimal keeps a value inside [0,100]. -/
lemma pyRound1_mem_Icc (q : ℚ) (h0 : 0 ≤ q) (h1 : q ≤ 100) :
    0 ≤ pyRound1 q ∧ pyRound1 q ≤ 100 := by
  have hfl : ((round (10 * q) : ℤ) : ℚ) ≤ 10 * q + 1 / 2 := by
    rw [round_eq]
    exact_mod_cast Int.floor_le (10 * q + 1 / 2)
  have hfg : 10 * q + 1 / 2 - 1 < ((round (10 * q) : ℤ) : ℚ) := by
    rw [round_eq]
    exact_mod_cast Int.sub_one_lt_floor (10 * q + 1 / 2)
  have h2i : (0 : ℤ) ≤ round (10 * q) := by
    have h2 : (-1 : ℚ) < ((round (10 * q) : ℤ) : ℚ) := by linarith
    have h2z : (-1 : ℤ) < round (10 * q) := by exact_mod_cast h2
    omega
  have h3i : round (10 * q) ≤ (1000 : ℤ) := by
    have h3 : ((round (10 * q) : ℤ) : ℚ) < 1001 := by linarith
    have h3z : round (10 * q) < (1001 : ℤ) := by exact_mod_cast h3
    omega
  constructor
  · unfold pyRound1
    exact div_nonneg (by exact_mod_cast h2i) (by norm_num)
  · unfold pyRound1
    rw [div_le_iff₀ (by norm_num)]
    have : ((round (10 * q) : ℤ) : ℚ) ≤ 1000 := by exact_mod_cast h3i
    linarith


/-- The altitude factor is at least 1 for every altitude. -/
lemma one_le_altitude_factor (a : ℚ) : 1 ≤ _get_altitude_factor a := by
  simp only [_get_altitude_factor]
  split_ifs <;> norm_num

/-- The percentage produced from a nonnegative raw score lies in [0,100]:
the raw score is clamped with `min(100, ·)` and then rounded. -/
lemma mkRiskPrediction_percentage_bounds (raw c : ℚ) (h : 0 ≤ raw) :
    0 ≤ (mkRiskPrediction raw c).percentage ∧
      (mkRiskPrediction raw c).percentage ≤ 100 := by
  simp only [mkRiskPrediction]
  exact pyRound1_mem_Icc _ (le_min (by norm_num) h) (min_le_left 100 raw)

/-- C8: every risk predictor returns a percentage in [0,100] for arbitrary
numeric inputs of any magnitude (the raw scores are sums of nonnegative
contributions clamped at 100). -/
theorem risk_percentage_bounds (spo2 altitude heart_rate temperature
    systolic diastolic : ℚ) :
    (0 ≤ (_predict_hypoxia_risk spo2 altitude heart_rate).percentage ∧
      (_predict_hypoxia_risk spo2 altitude heart_rate).percentage ≤ 100) ∧
    (0 ≤ (_predict_altitude_sickness altitude spo2 heart_rate).percentage ∧
      (_predict_altitude_sickness altitude spo2 heart_rate).percentage ≤ 100) ∧
    (0 ≤ (_predict_cardiac_stress heart_rate systolic diastolic).percentage ∧
      (_predict_cardiac_stress heart_rate systolic diastolic).percentage ≤ 100) ∧
    (0 ≤ (_predict_hypothermia temperature altitude).percentage ∧
      (_predict_hypothermia temperature altitude).percentage ≤ 100) := by
  have hf : 0 ≤ (_get_altitude_factor altitude - 1.0) * 30 := by
    have h1 := one_le_altitude_factor altitude
    nlinarith
  refine ⟨?_, ?_, ?_, ?_⟩ <;>
    · simp only [_predict_hypoxia_risk, _predict_altitude_sickness,
        _predict_cardiac_stress, _predict_hypothermia]
      apply mkRiskPrediction_percentage_bounds
      split_ifs <;> linarith

/-- Key facts about the `demoHigh` assessment: overall level high,
overall percentage 56.0, and an empty recommendation list. -/
lemma demoHigh_facts :
    demoHigh.overall_risk_level = "high" ∧ demoHigh.recommendations = [] ∧
      demoHigh.overall_risk_percentage = 56 := by
  norm_num [demoHigh, predict, _assess_vital, thresholds, _assess_blood_pressure,
    _calculate_health_score, _predict_hypoxia_risk, _predict_altitude_sickness,
    _predict_cardiac_stress, _predict_hypothermia, mkRiskPrediction,
    _get_altitude_factor, pyRound1, round_eq, _determine_overall_risk,
    _generate_recommendations, _predict_trend]
  all_goals decide

/-- The `demoLow` assessment has overall level low. -/
lemma demoLow_level : demoLow.overall_risk_level = "low" := by
  norm_num [demoLow, predict, _assess_vital, thresholds, _assess_blood_pressure,
    _calculate_health_score, _predict_hypoxia_risk, _predict_altitude_sickness,
    _predict_cardiac_stress, _predict_hypothermia, mkRiskPrediction,
    _get_altitude_factor, pyRound1, round_eq, _determine_overall_risk,
    _generate_recommendations, _predict_trend]

/-- Processing `demoHigh` at time 0 on an empty table creates
`demoAlert0`. -/
lemma demo_step0 : _check_and_create_alert [] demoData demoHigh 0 = [demoAlert0] := by
  have h := demoHigh_facts
  norm_num [_check_and_create_alert, h.1, h.2.1, h.2.2, demoData, demoAlert0,
    recentMatch]

/-- Processing `demoHigh` again at time 1 is suppressed: `demoAlert0` is an
unacknowledged alert of the same soldier and severity less than 10 minutes
old. -/
lemma demo_step1 :
    _check_and_create_alert [demoAlert0] demoData demoHigh 1 = [demoAlert0] := by
  have h := demoHigh_facts
  norm_num [_check_and_create_alert, h.1, demoData, demoAlert0, recentMatch,
    List.countP_cons]

/-- Processing `demoHigh` at time 11 creates a second alert: `demoAlert0`
is by then more than 10 minutes old. -/
lemma demo_step2 :
    _check_and_create_alert [demoAlert0] demoData demoHigh 11 =
      [demoAlert0, demoAlert11] := by
  have h := demoHigh_facts
  norm_num [_check_and_create_alert, h.1, h.2.1, h.2.2, demoData, demoAlert0,
    demoAlert11, recentMatch, List.countP_cons]

/-- `_check_and_create_alert` preserves the deduplication invariant: a new
alert is only inserted when every unacknowledged same-soldier same-severity
row is strictly older than 10 minutes. -/
lemma check_and_create_preserves_dedup (alerts : List AlertRecord)
    (data : StoredVitals) (ml : PredictResults) (now : ℚ)
    (h : alerts.Pairwise dedupOK) :
    (_check_and_create_alert alerts data ml now).Pairwise dedupOK := by
  simp only [_check_and_create_alert]
  split_ifs with h1 h2
  · exact h
  · rw [List.pairwise_append]
    refine ⟨h, List.pairwise_singleton _ _, ?_⟩
    intro a ha b hb
    rw [List.mem_singleton] at hb
    subst hb
    intro hsold hsev hack _
    have hs2 : a.soldier_id = data.soldier_id := hsold
    have hsev2 : a.severity = ml.overall_risk_level := hsev
    have h0 : alerts.countP
        (recentMatch data.soldier_id ml.overall_risk_level (now - 10)) = 0 :=
      Nat.eq_zero_of_not_pos h2
    have hmem := List.countP_eq_zero.mp h0 a ha
    simp [recentMatch, hs2, hsev2, hack] at hmem
    show (10 : ℚ) < |a.created_at - now|
    have habs : -(a.created_at - now) ≤ |a.created_at - now| := neg_le_abs _
    linarith
  · exact h

/-- `acknowledge_alert` preserves the deduplication invariant: marking a
row acknowledged only removes it from the set the invariant constrains. -/
lemma acknowledge_preserves_dedup (alerts : List AlertRecord) (alert_id : ℕ)
    (now : ℚ) (h : alerts.Pairwise dedupOK) :
    (acknowledge_alert alerts alert_id now).Pairwise dedupOK := by
  simp only [acknowledge_alert]
  refine List.Pairwise.map _ (fun a b hab => ?_) h
  rcases eq_or_ne a.id alert_id with ha | ha <;>
    rcases eq_or_ne b.id alert_id with hb | hb <;>
      simp [ha, hb]
  · intro _ _ k3 _
    simp at k3
  · intro _ _ k3 _
    simp at k3
  · intro _ _ _ k4
    simp at k4
  · exact hab

/-- Every alerts table reachable by a sequence of store/acknowledge events
from the empty table satisfies the pairwise deduplication invariant. -/
lemma runEvents_pairwise (events : List DbEvent) :
    (runEvents events).Pairwise dedupOK := by
  suffices h : ∀ s : List AlertRecord, s.Pairwise dedupOK →
      (events.foldl applyEvent s).Pairwise dedupOK from h [] List.Pairwise.nil
  induction events with
  | nil => intro s hs; exact hs
  | cons e es ih =>
    intro s hs
    cases e with
    | store d ml now => exact ih _ (check_and_create_preserves_dedup s d ml now hs)
    | ack i now => exact ih _ (acknowledge_preserves_dedup s i now hs)

/-- C3: over every serialized sequence of assessments (and operator
acknowledgements), no two unacknowledged alert rows of the same soldier
and severity are created within 10 minutes of each other; no alert row is
ever created for an assessment whose overall level is neither high nor
critical; and concretely two high readings of the same soldier at times 0
and 1 minute produce exactly the one alert `demoAlert0`, while a third
high reading at minute 11 produces the second alert `demoAlert11`. -/
theorem alert_dedup_invariant :
    (∀ events : List DbEvent, (runEvents events).Pairwise dedupOK) ∧
    (∀ (alerts : List AlertRecord) (data : StoredVitals) (ml : PredictResults)
        (now : ℚ),
      ml.overall_risk_level ≠ "high" → ml.overall_risk_level ≠ "critical" →
      _check_and_create_alert alerts data ml now = alerts) ∧
    runEvents [DbEvent.store demoData demoHigh 0,
      DbEvent.store demoData demoHigh 1] = [demoAlert0] ∧
    runEvents [DbEvent.store demoData demoHigh 0,
      DbEvent.store demoData demoHigh 1,
      DbEvent.store demoData demoHigh 11] = [demoAlert0, demoAlert11] := by
  refine ⟨runEvents_pairwise, ?_, ?_, ?_⟩
  · intro alerts d ml now hh hc
    simp only [_check_and_create_alert]
    rw [if_neg (not_or.mpr ⟨hh, hc⟩)]
  · simp [runEvents, applyEvent, demo_step0, demo_step1]
  · simp [runEvents, applyEvent, demo_step0, demo_step1, demo_step2]

/-- C3 witness: the no-alert-below-high part applied to the concrete
low-risk assessment `demoLow` on the empty table. -/
theorem alert_dedup_invariant_witness :
    _check_and_create_alert [] demoData demoLow 0 = [] :=
  alert_dedup_invariant.2.1 [] demoData demoLow 0
    (by rw [demoLow_level]; decide) (by rw [demoLow_level]; decide)

/-- C5 counterexample: the reading heart_rate=45, spo2=91,
temperature=36.8, systolic=120, diastolic=80, altitude=5600 is classified
overall high and generates the recommendations [HIGH monitor-oxygen,
URGENT cardiac-assessment]; the alert created for it carries the HIGH
action of the HIGH entry (the first in rule order) as its message, not that of
the strictly higher-priority URGENT recommendation. -/
theorem alert_message_not_top_priority :
    bradyML.overall_risk_level = "high" ∧
    bradyML.recommendations.map (fun r => (r.priority, r.action)) =
      [("HIGH", "Monitor oxygen saturation closely, consider oxygen therapy"),
       ("URGENT", "Cardiac assessment required - possible arrhythmia")] ∧
    specPriorityRank "HIGH" < specPriorityRank "URGENT" ∧
    (_check_and_create_alert [] ⟨"SOL-7842-ALPHA", 45, 91, 36.8⟩ bradyML 0).map
        AlertRecord.message =
      ["Monitor oxygen saturation closely, consider oxygen therapy"] ∧
    "Monitor oxygen saturation closely, consider oxygen therapy" ≠
      "Cardiac assessment required - possible arrhythmia" := by
  norm_num [bradyML, predict, _assess_vital, thresholds, _assess_blood_pressure,
    _calculate_health_score, _predict_hypoxia_risk, _predict_altitude_sickness,
    _predict_cardiac_stress, _predict_hypothermia, mkRiskPrediction,
    _get_altitude_factor, pyRound1, round_eq, _determine_overall_risk,
    _generate_recommendations, _predict_trend, _check_and_create_alert,
    recentMatch, specPriorityRank]
  all_goals decide

/-- C5 (amended): every alert row the deduplicator creates carries as its
message the action text of the first recommendation in rule-evaluation
order (the literal fallback text when the list is empty) — not necessarily
the top-priority one — together with a snapshot of heart_rate, spo2,
temperature and the overall risk percentage. -/
theorem created_alert_message_and_snapshot (alerts : List AlertRecord)
    (data : StoredVitals) (ml : PredictResults) (now : ℚ) (a : AlertRecord)
    (ha : a ∈ _check_and_create_alert alerts data ml now) (hnew : a ∉ alerts) :
    a.message = (match ml.recommendations with
      | [] => "Health risk detected"
      | r :: _ => r.action) ∧
    a.snapshot_heart_rate = data.heart_rate ∧
    a.snapshot_spo2 = data.spo2 ∧
    a.snapshot_temperature = data.temperature ∧
    a.snapshot_risk_percentage = ml.overall_risk_percentage := by
  simp only [_check_and_create_alert] at ha
  split_ifs at ha with h1 h2
  · exact absurd ha hnew
  · rcases List.mem_append.mp ha with hmem | hmem
    · exact absurd hmem hnew
    · rw [List.mem_singleton] at hmem
      subst hmem
      exact ⟨rfl, rfl, rfl, rfl, rfl⟩
  · exact absurd ha hnew

/-- C5 witness: the message/snapshot property applied to the concrete
alert `demoAlert0` created from `demoHigh` on the empty table. -/
theorem created_alert_message_witness :
    demoAlert0.message = (match demoHigh.recommendations with
      | [] => "Health risk detected"
      | r :: _ => r.action) ∧
    demoAlert0.snapshot_heart_rate = demoData.heart_rate ∧
    demoAlert0.snapshot_spo2 = demoData.spo2 ∧
    demoAlert0.snapshot_temperature = demoData.temperature ∧
    demoAlert0.snapshot_risk_percentage = demoHigh.overall_risk_percentage :=
  created_alert_message_and_snapshot [] demoData demoHigh 0 demoAlert0
    (by rw [demo_step0]; exact List.mem_singleton_self _)
    (by simp)

end OxyShield
